import Mathlib

/-!
Shallow embedding of `src/app.py` (a single-file Streamlit application that
uploads a PDF, extracts its text, builds a retrieval-augmented QA pipeline and
answers questions), together with theorems settling the specification claims.

Python strings are modelled as `List Char`; the external collaborators
(PDF parser, text splitter, embedding model, vector index, LLM) enter either
through an environment record of their observable results or as definitions
modelled from the specification's collaborator contracts where noted.
-/

/-- Python strings are modelled as lists of characters, so that every text
operation of the program reduces inside the kernel. -/
abbrev Str := List Char

/-- Truthiness test used by `if text:` in app.py line 65: an empty string is
falsy, a non-empty string is truthy. -/
def pyTruthy (s : Str) : Bool := !s.isEmpty

/-- Characters removed by Python `str.strip()` with no arguments
(the ASCII whitespace set). -/
def pyIsSpace (c : Char) : Bool :=
  c == ' ' || c == '\t' || c == '\n' || c == '\r' || c == Char.ofNat 11 || c == Char.ofNat 12

/-- Test `not raw_text.strip()` of app.py line 68: true exactly when the text
contains no non-whitespace character. -/
def stripEmpty (s : Str) : Bool := s.all pyIsSpace

/-- Embedding of the `raw_text` accumulation loop of app.py lines 62-66:
`raw_text = ""` followed by `raw_text += text` for each page whose
`extract_text()` result is truthy.  Pages are represented by their extracted
text (empty for an image-only/scanned page). -/
def extractRawText (pages : List Str) : Str :=
  pages.foldl (fun acc t => if pyTruthy t then acc ++ t else acc) []

/-- Error message of app.py line 69. -/
def noTextMsg : Str := "No text found. Is this a scanned PDF? Use OCR version.".data

/-- Success message of app.py line 96. -/
def loadedMsg : Str := "Book loaded! Ask anything below.".data

/-- Modelled from the spec: the text-splitting collaborator invoked at app.py
lines 74-75 (`RecursiveCharacterTextSplitter(chunk_size=1000, chunk_overlap=200)`)
is an external library whose code is not in this repository; the spec describes
its effect as "a simple sliding window over the full concatenated text" with the
configured size and overlap.  Fuel-based worker: emits a window of `size`
characters and advances by `step = size - overlap` until the remaining text fits
in one chunk.  The fuel never runs out when it starts at the text length. -/
def splitGo (size step : Nat) : Nat → Str → List Str
  | 0, t => [t]
  | fuel + 1, t =>
      if t.length ≤ size then [t] else t.take size :: splitGo size step fuel (t.drop step)

/-- Modelled from the spec: `split(text, chunk_size, overlap)` of the
text-splitting collaborator (spec section 6); an empty text yields no chunks. -/
def splitText (chunkSize overlap : Nat) (text : Str) : List Str :=
  if text.isEmpty then [] else splitGo chunkSize (chunkSize - overlap) text.length text

/-- Pure counting mirror of `splitGo`, used to compute how many chunks a text of
a given length produces. -/
def chunkCountGo (size step : Nat) : Nat → Nat → Nat
  | 0, _ => 1
  | fuel + 1, n => if n ≤ size then 1 else 1 + chunkCountGo size step fuel (n - step)

/-- Modelled from the spec: the embedding collaborator is a function from text
to a fixed-length numeric vector (spec section 6). -/
abbrev EmbedFn := Str → List Int

/-- Squared L2 distance between two embedding vectors. -/
def dist2 (u v : List Int) : Int :=
  (List.zipWith (fun x y => (x - y) * (x - y)) u v).foldl (· + ·) 0

/-- Insertion step of a stable sort of (distance, chunk) pairs by distance. -/
def insertByDist (p : Int × Str) : List (Int × Str) → List (Int × Str)
  | [] => [p]
  | q :: r => if p.1 < q.1 then p :: q :: r else q :: insertByDist p r

/-- Stable insertion sort of (distance, chunk) pairs by ascending distance. -/
def sortByDist : List (Int × Str) → List (Int × Str)
  | [] => []
  | p :: r => insertByDist p (sortByDist r)

/-- In-memory vector index built at app.py line 80 (`FAISS.from_texts`): it
holds the chunk texts and the embedding function used to index them. -/
structure VectorStore where
  chunks : List Str
  embedF : EmbedFn

/-- Modelled from the spec: nearest-neighbour retrieval of the vector-index
collaborator (spec section 6): embed the query, rank all chunks by distance to
it (stable, hence deterministic), return the first `k` chunk texts. -/
def retrieve (vs : VectorStore) (k : Nat) (q : Str) : List Str :=
  ((sortByDist (vs.chunks.map fun c => (dist2 (vs.embedF q) (vs.embedF c), c))).map
    Prod.snd).take k

/-- QA chain built at app.py lines 87-92: a retriever over the vector store with
`k = 4`. -/
structure QAChain where
  vs : VectorStore
  k : Nat

/-- Stuffed prompt assembled by the chain: retrieved context plus the question. -/
def mkPrompt (q : Str) (ctx : List Str) : Str := ctx.flatten ++ q

/-- Invocation `qa_chain({"query": question})` of app.py line 108: the source
documents come from retrieval over the chain's index; the answer text comes from
the LLM oracle applied to the stuffed prompt (the oracle stands for one
behaviour of the non-deterministic inference process). -/
def askChain (oracle : Str → Str) (ch : QAChain) (q : Str) : Str × List Str :=
  (oracle (mkPrompt q (retrieve ch.vs ch.k q)), retrieve ch.vs ch.k q)

/-- Truncation suffix of app.py line 118. -/
def ellipsis : Str := "...".data

/-- Embedding of app.py line 118: the displayed text of one source chunk,
`doc.page_content[:500] + ("..." if len(doc.page_content) > 500 else "")`. -/
def displaySource (s : Str) : Str :=
  s.take 500 ++ (if 500 < s.length then ellipsis else [])

/-- An uploaded file: original filename and raw byte buffer. -/
structure UploadedFile where
  name : Str
  bytes : List Nat

/-- The `st.session_state` fields initialised at app.py lines 22-27. -/
structure SessionState where
  vectorstore : Option VectorStore
  qa_chain : Option QAChain
  pdf_processed : Bool

/-- How one run of the script body ends: normal fall-through, `st.stop()`, or an
uncaught Python exception (carrying its message). -/
inductive Outcome where
  | normal : Outcome
  | stopped : Outcome
  | raised : Str → Outcome
deriving DecidableEq

/-- The processing steps of the script body, recorded in execution order so that
"step never executed" claims are expressible. -/
inductive Step where
  | createTemp : Step
  | preview : Step
  | parsePdf : Step
  | extract : Step
  | split : Step
  | buildIndex : Step
  | buildChain : Step
  | ask : Step
  | cleanup : Step
deriving DecidableEq

/-- User-visible UI events the script can emit (`st.write` of the page count,
`st.error`, `st.warning`, `st.success`, and the rendered answer with its
displayed source chunks).  `warning` is part of the UI vocabulary
(`st.warning`) whether or not the script ever emits it. -/
inductive UIEvent where
  | pageCount : Nat → UIEvent
  | errorMsg : Str → UIEvent
  | warning : Str → UIEvent
  | success : Str → UIEvent
  | answer : Str → List Str → UIEvent
deriving DecidableEq

/-- Observable behaviour of the external collaborators during one run:
the PDF parser either yields the per-page extracted texts or raises; the
embedding/index build, the chain build and the chain invocation may each raise;
`embed` is the embedding model and `oracle` one behaviour of the LLM. -/
structure Env where
  parse : Except Str (List Str)
  embedExn : Option Str
  chainExn : Option Str
  askExn : Option Str
  embed : EmbedFn
  oracle : Str → Str

/-- Result of one run of the script body: the session state left behind, the
emitted UI events, the steps executed, how the run ended, and whether the
temporary file was deleted (app.py lines 121-122). -/
structure RunResult where
  state : SessionState
  events : List UIEvent
  steps : List Step
  outcome : Outcome
  tempDeleted : Bool

/-- One full run of the Streamlit script body for a present upload (app.py
lines 34-122).  The temp file is written (line 36), the preview rendered
(lines 43-49), the PDF parsed (line 56), the raw text extracted (lines 62-66),
the no-text guard applied (lines 68-70, `st.stop()`), the text split (line 75),
the vector store built and stored (lines 79-81), the QA chain built and stored
(lines 85-94), the question answered if one is present and non-empty
(lines 101-118), and finally the temp file unlinked (lines 121-122) — the
unlink is reached only when neither `st.stop()` nor an exception interrupted
the straight-line body, because no `try`/`finally` protects it. -/
def runScript (env : Env) (st0 : SessionState) (_file : UploadedFile)
    (question : Option Str) : RunResult :=
  match env.parse with
  | Except.error e =>
      { state := st0, events := []
        steps := [Step.createTemp, Step.preview, Step.parsePdf]
        outcome := Outcome.raised e, tempDeleted := false }
  | Except.ok pages =>
      let raw := extractRawText pages
      if stripEmpty raw then
        { state := st0
          events := [UIEvent.pageCount pages.length, UIEvent.errorMsg noTextMsg]
          steps := [Step.createTemp, Step.preview, Step.parsePdf, Step.extract]
          outcome := Outcome.stopped, tempDeleted := false }
      else
        match env.embedExn with
        | some e =>
            { state := st0, events := [UIEvent.pageCount pages.length]
              steps := [Step.createTemp, Step.preview, Step.parsePdf, Step.extract,
                Step.split, Step.buildIndex]
              outcome := Outcome.raised e, tempDeleted := false }
        | none =>
            let vs : VectorStore := { chunks := splitText 1000 200 raw, embedF := env.embed }
            let st1 : SessionState := { st0 with vectorstore := some vs }
            match env.chainExn with
            | some e =>
                { state := st1, events := [UIEvent.pageCount pages.length]
                  steps := [Step.createTemp, Step.preview, Step.parsePdf, Step.extract,
                    Step.split, Step.buildIndex, Step.buildChain]
                  outcome := Outcome.raised e, tempDeleted := false }
            | none =>
                let ch : QAChain := { vs := vs, k := 4 }
                let st2 : SessionState :=
                  { vectorstore := some vs, qa_chain := some ch, pdf_processed := true }
                let evs := [UIEvent.pageCount pages.length, UIEvent.success loadedMsg]
                let doneSteps := [Step.createTemp, Step.preview, Step.parsePdf, Step.extract,
                  Step.split, Step.buildIndex, Step.buildChain, Step.cleanup]
                let askSteps := [Step.createTemp, Step.preview, Step.parsePdf, Step.extract,
                  Step.split, Step.buildIndex, Step.buildChain, Step.ask]
                if st2.pdf_processed then
                  match question with
                  | none =>
                      { state := st2, events := evs, steps := doneSteps
                        outcome := Outcome.normal, tempDeleted := true }
                  | some q =>
                      if pyTruthy q then
                        match st2.qa_chain with
                        | none =>
                            { state := st2, events := evs, steps := doneSteps
                              outcome := Outcome.normal, tempDeleted := true }
                        | some ch2 =>
                            match env.askExn with
                            | some e =>
                                { state := st2, events := evs, steps := askSteps
                                  outcome := Outcome.raised e, tempDeleted := false }
                            | none =>
                                let res := askChain env.oracle ch2 q
                                { state := st2
                                  events := evs ++
                                    [UIEvent.answer res.1 (res.2.map displaySource)]
                                  steps := askSteps ++ [Step.cleanup]
                                  outcome := Outcome.normal, tempDeleted := true }
                      else
                        { state := st2, events := evs, steps := doneSteps
                          outcome := Outcome.normal, tempDeleted := true }
                else
                  { state := st2, events := evs, steps := doneSteps
                    outcome := Outcome.normal, tempDeleted := true }

/-- True when the event list contains an `st.warning` rendering. -/
def hasWarning (evs : List UIEvent) : Bool :=
  evs.any fun e => match e with | UIEvent.warning _ => true | _ => false

/-- True when the event list contains an `st.error` rendering. -/
def hasErrorMsg (evs : List UIEvent) : Bool :=
  evs.any fun e => match e with | UIEvent.errorMsg _ => true | _ => false

/-- True when the step list records the given step as executed. -/
def hasStep (s : Step) (l : List Step) : Bool :=
  l.any fun t => decide (t = s)

/-- Ordered source-chunk lists of all rendered answers in an event list. -/
def sourcesList (evs : List UIEvent) : List (List Str) :=
  evs.filterMap fun e => match e with | UIEvent.answer _ s => some s | _ => none

/-- Decimal rendering of a page number. -/
def natStr (n : Nat) : Str := (Nat.repr n).data

/-- Page-boundary marker named by the spec: `--- Page N ---`. -/
def marker (n : Nat) : Str := "--- Page ".data ++ natStr n ++ " ---".data

/-- Substring test: `beginsWith pat s` is true when `pat` is an initial segment
of `s`. -/
def beginsWith : Str → Str → Bool
  | [], _ => true
  | _ :: _, [] => false
  | a :: p, b :: t => a == b && beginsWith p t

/-- Substring test: `hasSub pat s` is true when `pat` occurs contiguously in
`s`. -/
def hasSub (pat : Str) : Str → Bool
  | [] => beginsWith pat []
  | c :: rest => beginsWith pat (c :: rest) || hasSub pat rest

/-- Modelled from the spec: the placeholder substituted for a page yielding no
text in the page-marked full extraction (spec section 4.2); the code under
`src/` contains no such placeholder, so its exact wording is a modelling
choice. -/
def noTextPlaceholder : Str := "[No text extracted from this page]".data

/-- Modelled from the spec: the page-marked full-document extraction of spec
section 4.2 — per-page text prefixed by its `--- Page N ---` marker, with the
placeholder substituted for pages yielding no text.  This feature is absent
from `src/app.py` (its extraction loop is plain concatenation), so it is
modelled from the spec's words for comparison. -/
def specFullTextGo : Nat → List Str → Str
  | _, [] => []
  | n, p :: rest =>
      marker n ++ "\n".data ++ (if p.isEmpty then noTextPlaceholder else p) ++
        "\n\n".data ++ specFullTextGo (n + 1) rest

/-- Modelled from the spec: page-marked full extraction starting at page 1. -/
def specFullText (pages : List Str) : Str := specFullTextGo 1 pages

/-- The two download endpoints described by the spec. -/
structure DownloadEndpoints where
  originalName : Str
  originalBytes : List Nat
  textName : Str
  textContent : Str

/-- Modelled from the spec: the download endpoints of spec sections 4.3 and 6
(original bytes re-served unmodified under the original filename, and a text
file named `<original_filename>_full_text.txt` holding the page-marked full
extraction).  `src/app.py` contains no download widgets; this models the
missing viewer portion of the repository from the spec's words. -/
def makeDownloads (u : UploadedFile) (pages : List Str) : DownloadEndpoints :=
  { originalName := u.name
    originalBytes := u.bytes
    textName := u.name ++ "_full_text.txt".data
    textContent := specFullText pages }

/-! ### Helper lemmas -/

lemma extractRawText_go (pages : List Str) :
    ∀ acc : Str, pages.foldl (fun acc t => if pyTruthy t then acc ++ t else acc) acc =
      acc ++ pages.flatten := by
  induction pages with
  | nil => intro acc; simp
  | cons p rest ih =>
      intro acc
      rw [List.foldl_cons, ih, List.flatten_cons]
      cases p with
      | nil => simp [pyTruthy]
      | cons c cs => simp [pyTruthy, List.append_assoc]

lemma extractRawText_eq (pages : List Str) : extractRawText pages = pages.flatten := by
  simpa using extractRawText_go pages []

lemma splitGo_chunk_le (fuel : Nat) :
    ∀ t : Str, t.length ≤ fuel + 1000 → ∀ c ∈ splitGo 1000 800 fuel t, c.length ≤ 1000 := by
  induction fuel with
  | zero =>
      intro t h c hc
      simp [splitGo] at hc
      subst hc
      simpa using h
  | succ n ih =>
      intro t h c hc
      by_cases hle : t.length ≤ 1000
      · simp [splitGo, hle] at hc
        subst hc
        exact hle
      · simp [splitGo, hle] at hc
        rcases hc with hc | hc
        · subst hc
          exact List.length_take_le 1000 t
        · exact ih (t.drop 800) (by rw [List.length_drop]; omega) c hc

lemma splitGo_head (fuel : Nat) (t c : Str) (tl : List Str)
    (h : splitGo 1000 800 fuel t = c :: tl) : c.take 200 = t.take 200 := by
  cases fuel with
  | zero =>
      simp [splitGo] at h
      rw [h.1]
  | succ n =>
      by_cases hle : t.length ≤ 1000
      · simp [splitGo, hle] at h
        rw [h.1]
      · simp [splitGo, hle] at h
        rw [← h.1, List.take_take]
        norm_num

lemma splitGo_adj (fuel : Nat) :
    ∀ (t : Str) (l : List Str) (c₁ c₂ : Str) (r : List Str),
      splitGo 1000 800 fuel t = l ++ c₁ :: c₂ :: r →
      c₁.length = 1000 ∧ c₁.drop 800 = c₂.take 200 := by
  induction fuel with
  | zero =>
      intro t l c₁ c₂ r h
      have hlen := congrArg List.length h
      simp [splitGo] at hlen
      omega
  | succ n ih =>
      intro t l c₁ c₂ r h
      by_cases hle : t.length ≤ 1000
      · rw [splitGo, if_pos hle] at h
        have hlen := congrArg List.length h
        simp at hlen
        omega
      · rw [splitGo, if_neg hle] at h
        cases l with
        | nil =>
            simp at h
            obtain ⟨h1, h2⟩ := h
            obtain ⟨c₂', tl', hhead⟩ : ∃ c' tl', splitGo 1000 800 n (t.drop 800) = c' :: tl' := by
              cases hsg : splitGo 1000 800 n (t.drop 800) with
              | nil => rw [hsg] at h2; cases h2
              | cons a b => exact ⟨a, b, rfl⟩
            rw [hhead] at h2
            obtain ⟨hc2, _⟩ := List.cons.injEq .. ▸ h2
            constructor
            · rw [← h1, List.length_take]
              omega
            · have := splitGo_head n (t.drop 800) c₂' tl' hhead
              rw [← h1, List.drop_take, ← hc2, this]
        | cons a l' =>
            simp at h
            exact ih (t.drop 800) l' c₁ c₂ r h.2

lemma splitGo_length (fuel : Nat) :
    ∀ t : Str, (splitGo 1000 800 fuel t).length = chunkCountGo 1000 800 fuel t.length := by
  induction fuel with
  | zero => intro t; simp [splitGo, chunkCountGo]
  | succ n ih =>
      intro t
      by_cases hle : t.length ≤ 1000
      · simp [splitGo, chunkCountGo, hle]
      · simp [splitGo, chunkCountGo, hle, ih (t.drop 800), List.length_drop]
        omega

/-! ### Fixed concrete inputs used by witnesses and counterexamples -/

/-- Initial session state of app.py lines 22-27. -/
def s0 : SessionState := { vectorstore := none, qa_chain := none, pdf_processed := false }

/-- A concrete uploaded file. -/
def f0 : UploadedFile := { name := "b.pdf".data, bytes := [37, 80, 68, 70] }

/-- Concrete texts used in witnesses and counterexamples. -/
def helloTxt : Str := "hello".data

/-- Concrete page text used in witnesses. -/
def hiTxt : Str := "hi".data

/-- Concrete question text used in witnesses. -/
def qTxt : Str := "q".data

/-- Concrete answer text produced by the witness LLM oracle. -/
def okTxt : Str := "ok".data

/-- Concrete chunk text of a stale previous-session index. -/
def oldTxt : Str := "old".data

/-- Concrete exception message of a failing PDF parse. -/
def pdfErrTxt : Str := "corrupt PDF".data

/-! ### Claim theorems -/

/-- C5: splitting a non-empty text with chunk size 1000 and overlap 200 is
deterministic (equal inputs give equal chunk sequences), every chunk is at most
1000 characters long, every pair of adjacent chunks consists of a full
1000-character chunk whose last 200 characters equal the first 200 characters
of its successor (an overlap of up to 200 characters), and a 2500-character
text yields exactly 3 chunks. -/
theorem c5_chunking_properties (t : Str) (hne : t ≠ []) :
    (∀ t' : Str, t = t' → splitText 1000 200 t = splitText 1000 200 t') ∧
    (∀ c ∈ splitText 1000 200 t, c.length ≤ 1000) ∧
    (∀ (l : List Str) (c₁ c₂ : Str) (r : List Str),
        splitText 1000 200 t = l ++ c₁ :: c₂ :: r →
        c₁.length = 1000 ∧ c₁.drop 800 = c₂.take 200) ∧
    (t.length = 2500 → (splitText 1000 200 t).length = 3) := by
  have hie : t.isEmpty = false := by
    cases t with
    | nil => exact absurd rfl hne
    | cons c cs => rfl
  refine ⟨fun t' h => by rw [h], ?_, ?_, ?_⟩
  · intro c hc
    rw [splitText] at hc
    simp [hie] at hc
    exact splitGo_chunk_le t.length t (by omega) c hc
  · intro l c₁ c₂ r h
    rw [splitText] at h
    simp [hie] at h
    exact splitGo_adj t.length t l c₁ c₂ r h
  · intro h2500
    rw [splitText]
    simp [hie, splitGo_length, h2500]
    decide

/-- C5 witness: a concrete 2500-character text is split into exactly 3
chunks. -/
theorem c5_chunking_properties_witness :
    (splitText 1000 200 (List.replicate 2500 'a')).length = 3 :=
  (c5_chunking_properties (List.replicate 2500 'a')
    (by apply List.length_pos.mp; rw [List.length_replicate]; omega)).2.2.2
    (by rw [List.length_replicate])

/-- C2 counterexample: for a one-page document whose page text is "hello", the
code's full-document extracted text is plain "hello"; it contains no
`--- Page 1 ---` marker at all, not the one marker per page the claim
requires. -/
theorem c2_counterexample :
    extractRawText [helloTxt] = helloTxt ∧
    hasSub (marker 1) (extractRawText [helloTxt]) = false := by
  constructor <;> decide

/-- C2 (amended): the full-document extracted text is the plain concatenation
of the per-page extracted texts in page order — pages yielding no text
contribute nothing, and no page-boundary markers and no placeholder strings are
inserted. -/
theorem c2_full_text_plain_concat (pages : List Str) :
    extractRawText pages = pages.flatten :=
  extractRawText_eq pages

/-- C9: the download endpoints re-serve the original uploaded bytes unmodified
under the original filename, and offer a text file named
`<original_filename>_full_text.txt` whose content is the page-marked full
extraction (endpoints modelled from the spec: no download widget exists in
`src/app.py`). -/
theorem c9_download_endpoints (u : UploadedFile) (pages : List Str) :
    (makeDownloads u pages).originalBytes = u.bytes ∧
    (makeDownloads u pages).originalName = u.name ∧
    (makeDownloads u pages).textName = u.name ++ "_full_text.txt".data ∧
    (makeDownloads u pages).textContent = specFullText pages :=
  ⟨rfl, rfl, rfl, rfl⟩

/-- C10: every displayed source chunk shows at most the first 500 characters of
the chunk's content — the displayed prefix is `take 500`, an initial segment of
the content of length at most 500 — and the suffix "..." is appended exactly
when the content is longer than 500 characters (for short content the chunk is
shown whole, with no suffix). -/
theorem c10_source_display_truncation (s : Str) :
    (s.length ≤ 500 → displaySource s = s) ∧
    (500 < s.length → displaySource s = s.take 500 ++ ellipsis) ∧
    (s.take 500).length ≤ 500 ∧
    s.take 500 ++ s.drop 500 = s := by
  refine ⟨?_, ?_, List.length_take_le 500 s, List.take_append_drop 500 s⟩
  · intro h
    have hnot : ¬ 500 < s.length := by omega
    simp [displaySource, hnot, List.take_of_length_le h]
  · intro h
    simp [displaySource, h]

/-- C10 witness: a 2-character chunk is displayed whole with no suffix, and a
501-character chunk is displayed as its first 500 characters followed by
"...". -/
theorem c10_source_display_truncation_witness :
    displaySource hiTxt = hiTxt ∧
    displaySource (List.replicate 501 'a') =
      (List.replicate 501 'a').take 500 ++ ellipsis :=
  ⟨(c10_source_display_truncation hiTxt).1 (by decide),
   (c10_source_display_truncation (List.replicate 501 'a')).2.1
     (by rw [List.length_replicate]; omega)⟩

/-- Environment of a run whose single page yields no extractable text. -/
def envNoText : Env :=
  { parse := Except.ok [[]], embedExn := none, chainExn := none, askExn := none,
    embed := fun _ => [0], oracle := fun _ => [] }

/-- C1 counterexample: when processing halts because no extractable text was
found (`st.stop()` at app.py line 70), the temporary file is not deleted — the
unlink at lines 121-122 is never reached. -/
theorem c1_counterexample :
    (runScript envNoText s0 f0 none).outcome = Outcome.stopped ∧
    (runScript envNoText s0 f0 none).tempDeleted = false := by
  constructor <;> rfl

/-- C1 (amended): the temporary file is deleted exactly on runs that complete
normally; on the no-text halt and on every run ending in an uncaught exception
the temp file is left behind, because no `try`/`finally` protects the unlink
at app.py lines 121-122. -/
theorem c1_temp_file_cleanup (env : Env) (s : SessionState) (f : UploadedFile)
    (q : Option Str) :
    (runScript env s f q).tempDeleted = true ↔
      (runScript env s f q).outcome = Outcome.normal := by
  obtain ⟨pr, eex, cex, aex, em, orc⟩ := env
  rcases pr with e | pages
  · simp [runScript]
  · rcases eex with _ | e1 <;> rcases cex with _ | e2 <;> rcases aex with _ | e3 <;>
      rcases q with _ | qq <;>
      by_cases hs : stripEmpty (extractRawText pages) = true <;>
      simp [runScript, hs] <;> (try (split <;> simp))

/-- Environment of a run whose PDF parsing raises. -/
def envParseFail : Env :=
  { parse := Except.error pdfErrTxt, embedExn := none, chainExn := none,
    askExn := none, embed := fun _ => [0], oracle := fun _ => [] }

/-- C4 counterexample: a PDF-parsing exception is not caught anywhere in the
script: the run ends with the exception propagating out of the script's
outermost scope, and no error rendering is emitted for it. -/
theorem c4_counterexample :
    (runScript envParseFail s0 f0 none).outcome = Outcome.raised pdfErrTxt ∧
    hasErrorMsg (runScript envParseFail s0 f0 none).events = false := by
  constructor <;> rfl

/-- C4 (amended): the per-session script contains no exception handler: an
exception raised by the PDF-parsing step propagates out of the script as an
uncaught exception, and on every run ending in an uncaught exception the script
has rendered no error message for it (its only error rendering is the no-text
message of the stopped path). -/
theorem c4_exceptions_propagate (env : Env) (s : SessionState) (f : UploadedFile)
    (q : Option Str) :
    (∀ e, env.parse = Except.error e →
        (runScript env s f q).outcome = Outcome.raised e) ∧
    (∀ e, (runScript env s f q).outcome = Outcome.raised e →
        hasErrorMsg (runScript env s f q).events = false) := by
  obtain ⟨pr, eex, cex, aex, em, orc⟩ := env
  rcases pr with e0 | pages
  · simp [runScript, hasErrorMsg]
  · rcases eex with _ | e1 <;> rcases cex with _ | e2 <;> rcases aex with _ | e3 <;>
      rcases q with _ | qq <;>
      by_cases hs : stripEmpty (extractRawText pages) = true <;>
      simp [runScript, hs, hasErrorMsg] <;> (try (split <;> simp [hasErrorMsg]))

/-- C4 witness: concrete run on which the amended claim's hypotheses hold. -/
theorem c4_exceptions_propagate_witness :
    (runScript envParseFail s0 f0 none).outcome = Outcome.raised pdfErrTxt ∧
    hasErrorMsg (runScript envParseFail s0 f0 none).events = false :=
  ⟨(c4_exceptions_propagate envParseFail s0 f0 none).1 pdfErrTxt rfl,
   (c4_exceptions_propagate envParseFail s0 f0 none).2 pdfErrTxt
     ((c4_exceptions_propagate envParseFail s0 f0 none).1 pdfErrTxt rfl)⟩

/-- C3: when the concatenated extracted text contains no non-whitespace
character the run stops (fatal `st.stop()` after the `st.error` rendering of
the no-text message), and the chunking, embedding/index-building,
chain-building and answering steps are never executed. -/
theorem c3_no_text_halts (env : Env) (s : SessionState) (f : UploadedFile)
    (q : Option Str) (pages : List Str)
    (hp : env.parse = Except.ok pages)
    (hw : stripEmpty (extractRawText pages) = true) :
    (runScript env s f q).outcome = Outcome.stopped ∧
    hasErrorMsg (runScript env s f q).events = true ∧
    hasStep Step.split (runScript env s f q).steps = false ∧
    hasStep Step.buildIndex (runScript env s f q).steps = false ∧
    hasStep Step.buildChain (runScript env s f q).steps = false ∧
    hasStep Step.ask (runScript env s f q).steps = false := by
  obtain ⟨pr, eex, cex, aex, em, orc⟩ := env
  cases hp
  simp [runScript, hw, hasErrorMsg, hasStep]

/-- C3 witness: a concrete whitespace-only document stops without chunking,
indexing, chain building or answering. -/
theorem c3_no_text_halts_witness :
    (runScript envNoText s0 f0 none).outcome = Outcome.stopped ∧
    hasErrorMsg (runScript envNoText s0 f0 none).events = true ∧
    hasStep Step.split (runScript envNoText s0 f0 none).steps = false ∧
    hasStep Step.buildIndex (runScript envNoText s0 f0 none).steps = false ∧
    hasStep Step.buildChain (runScript envNoText s0 f0 none).steps = false ∧
    hasStep Step.ask (runScript envNoText s0 f0 none).steps = false :=
  c3_no_text_halts envNoText s0 f0 none [[]] rfl (by decide)

/-- C6: re-asking the same question against the same unchanged index retrieves
the same ordered source chunks: the rendered source-chunk lists of a run are
identical across any two behaviours of the LLM inference process (only the
answer text can differ), and the chain's retrieval result is a pure function of
the index and the question, independent of the LLM. -/
theorem c6_retrieval_deterministic (pr : Except Str (List Str))
    (eex cex aex : Option Str) (em : EmbedFn) (o₁ o₂ : Str → Str)
    (s : SessionState) (f : UploadedFile) (q : Option Str) :
    sourcesList (runScript ⟨pr, eex, cex, aex, em, o₁⟩ s f q).events =
      sourcesList (runScript ⟨pr, eex, cex, aex, em, o₂⟩ s f q).events ∧
    (∀ (ch : QAChain) (qq : Str), (askChain o₁ ch qq).2 = (askChain o₂ ch qq).2) := by
  refine ⟨?_, fun ch qq => rfl⟩
  rcases pr with e | pages
  · simp [runScript]
  · rcases eex with _ | e1 <;> rcases cex with _ | e2 <;> rcases aex with _ | e3 <;>
      rcases q with _ | qq <;>
      by_cases hs : stripEmpty (extractRawText pages) = true <;>
      simp [runScript, hs, sourcesList, askChain] <;>
      (try (split <;> simp [sourcesList, askChain]))

/-- Environment of a successful run over a document with one text page and one
empty (image-only) page. -/
def envEmptyPage : Env :=
  { parse := Except.ok [hiTxt, []], embedExn := none, chainExn := none,
    askExn := none, embed := fun _ => [0], oracle := fun _ => [] }

/-- C7 counterexample: for an upload with a text page and a page whose
extraction yields an empty result, the run completes normally and surfaces no
warning whatsoever — the code contains no warning for empty pages. -/
theorem c7_counterexample :
    (runScript envEmptyPage s0 f0 none).outcome = Outcome.normal ∧
    hasWarning (runScript envEmptyPage s0 f0 none).events = false := by
  constructor <;> rfl

/-- C7 (amended): a page whose extraction yields an empty result is silently
skipped: the script never emits any warning event on any run, and an empty page
contributes nothing to the full text — processing behaves exactly as if the
page were absent, so an empty page is never treated as an error. -/
theorem c7_empty_page_skipped (env : Env) (s : SessionState) (f : UploadedFile)
    (q : Option Str) (p₁ p₂ : List Str) :
    hasWarning (runScript env s f q).events = false ∧
    extractRawText (p₁ ++ [] :: p₂) = extractRawText (p₁ ++ p₂) := by
  constructor
  · obtain ⟨pr, eex, cex, aex, em, orc⟩ := env
    rcases pr with e | pages
    · simp [runScript, hasWarning]
    · rcases eex with _ | e1 <;> rcases cex with _ | e2 <;> rcases aex with _ | e3 <;>
        rcases q with _ | qq <;>
        by_cases hs : stripEmpty (extractRawText pages) = true <;>
        simp [runScript, hs, hasWarning] <;> (try (split <;> simp [hasWarning]))
  · simp [extractRawText_eq]

/-- Environment of a successful run over a one-page document with text "hi",
with a fixed embedding model and a fixed LLM behaviour. -/
def envAsk : Env :=
  { parse := Except.ok [hiTxt], embedExn := none, chainExn := none,
    askExn := none, embed := fun _ => [0], oracle := fun _ => okTxt }

/-- A session state left over from some previous upload, holding stale derived
entities. -/
def sStale : SessionState :=
  { vectorstore := some { chunks := [oldTxt], embedF := fun _ => [7] },
    qa_chain := some { vs := { chunks := [oldTxt], embedF := fun _ => [7] }, k := 4 },
    pdf_processed := true }

/-- C8: nothing derived from an earlier upload survives as the basis for
answering: the emitted events of a run (page count, messages, every rendered
answer and its sources) are independent of the session state left over from any
previous document, and the source chunks of every rendered answer are computed
by retrieval over the vector store built in this same run from the currently
uploaded document's chunks and embedding model. -/
theorem c8_derived_entities_rebuilt (env : Env) (s s' : SessionState)
    (f : UploadedFile) (q : Option Str) :
    (runScript env s f q).events = (runScript env s' f q).events ∧
    (∀ (pages : List Str) (a : Str) (src : List Str) (qq : Str),
        env.parse = Except.ok pages → q = some qq →
        UIEvent.answer a src ∈ (runScript env s f q).events →
        src = (retrieve { chunks := splitText 1000 200 (extractRawText pages),
                          embedF := env.embed } 4 qq).map displaySource) := by
  obtain ⟨pr, eex, cex, aex, em, orc⟩ := env
  constructor
  · rcases pr with e | pages
    · simp [runScript]
    · rcases eex with _ | e1 <;> rcases cex with _ | e2 <;> rcases aex with _ | e3 <;>
        rcases q with _ | qq <;>
        by_cases hs : stripEmpty (extractRawText pages) = true <;>
        simp [runScript, hs]
  · intro pages a src qq hp hq hmem
    cases hp
    cases hq
    by_cases hs : stripEmpty (extractRawText pages) = true <;>
      rcases eex with _ | e1 <;> rcases cex with _ | e2 <;> rcases aex with _ | e3 <;>
      simp [runScript, hs] at hmem
    all_goals
      revert hmem
      split <;> intro hmem <;> simp_all [askChain]

/-- C8 witness: starting from a stale session state holding derived entities of
an earlier document, a run over a new document produces exactly the events of a
fresh-session run, and the rendered answer's sources come from the new
document's own chunks. -/
theorem c8_derived_entities_rebuilt_witness :
    (runScript envAsk sStale f0 (some qTxt)).events =
      (runScript envAsk s0 f0 (some qTxt)).events ∧
    [hiTxt] = (retrieve { chunks := splitText 1000 200 (extractRawText [hiTxt]),
                              embedF := envAsk.embed } 4 qTxt).map displaySource :=
  ⟨(c8_derived_entities_rebuilt envAsk sStale s0 f0 (some qTxt)).1,
   (c8_derived_entities_rebuilt envAsk sStale s0 f0 (some qTxt)).2
     [hiTxt] okTxt [hiTxt] qTxt rfl rfl (by decide)⟩
